import Mathlib

/-!
# Verification of the real-kb MCP aggregator

Shallow embedding of the `real-kb` repository (aggregator tool
`ask_product_question` plus the YouTrack KB, Zendesk support-site and
GitHub source adapters) and proofs about its documented behaviour.

Network I/O is modelled by explicit "upstream response" oracles carried in
environment records: each adapter's `fetch` boundary becomes a function
from the request parameters it actually sends (query / id / resolved page
size) to `Except String body`, where `.error` models a thrown transport
error or a non-2xx response (the code under `src/` converts non-2xx
responses into thrown errors before any `catch`).  Optional JSON fields
become `Option`; JavaScript string truthiness (`x || y`, `if (x)`) is
translated as an explicit emptiness test.  TypeScript default parameters
and the `??` operator fire only on an absent (`undefined`) argument, so
optional arguments are `Option Int` / `Option Bool` resolved with
`Option.getD`.
-/

namespace RealKB

/-! ## Character-level string helpers (support-site.ts: htmlToMarkdown) -/

/-- ASCII whitespace, as trimmed by JavaScript `String.prototype.trim` on
the characters this code emits. -/
def isWS (c : Char) : Bool :=
  c == ' ' || c == '\t' || c == '\n' || c == '\r'

/-- `s.trim()` on the character list: drop whitespace from both ends. -/
def trimChars (l : List Char) : List Char :=
  ((l.dropWhile isWS).reverse.dropWhile isWS).reverse

/-- `s.trim()` on strings. -/
def trimString (s : String) : String :=
  String.mk (trimChars s.data)

/-- Length of a newline run after `replace(/\n{3,}/g, '\n\n')`: a run of
three or more newline characters becomes exactly two. -/
def collapseRun (k : Nat) : Nat :=
  if k ≥ 3 then 2 else k

/-- Worker for the `\n{3,}` collapse: `run` counts the newline characters
read but not yet emitted. -/
def collapseNLAux : List Char → Nat → List Char
  | [], run => List.replicate (collapseRun run) '\n'
  | c :: cs, run =>
    if c = '\n' then collapseNLAux cs (run + 1)
    else List.replicate (collapseRun run) '\n' ++ c :: collapseNLAux cs 0

/-- `s.replace(/\n{3,}/g, '\n\n')` on the character list. -/
def collapseNL (l : List Char) : List Char :=
  collapseNLAux l 0

/-- `true` iff the list is empty or starts with a non-whitespace character. -/
def headNotWS : List Char → Bool
  | [] => true
  | c :: _ => !isWS c

/-- `true` iff the list contains three consecutive newline characters. -/
def hasTripleNL : List Char → Bool
  | [] => false
  | [_] => false
  | [_, _] => false
  | a :: b :: c :: rest =>
    if a = '\n' ∧ b = '\n' ∧ c = '\n' then true else hasTripleNL (b :: c :: rest)

/-! ## HTML document model (support-site.ts)

`htmlToMarkdown` receives an HTML string and walks the cheerio parse tree.
Parsing is the external library's job, so the embedding takes the parsed
tree directly: a forest of `HNode`s, with element tag names already
lowercased as cheerio reports them. -/

/-- A parsed HTML node: raw text or an element with children. -/
inductive HNode where
  | text : String → HNode
  | elem : String → List HNode → HNode
deriving Repr

/-- Tags removed from the text of a selected node: the argument of
`.children('h1,h2,h3,h4,h5,h6,ul,ol,table,blockquote').remove()`. -/
def blockTags : List String :=
  ["h1", "h2", "h3", "h4", "h5", "h6", "ul", "ol", "table", "blockquote"]

/-- Tags visited by the normalizer: `$('h1, h2, h3, h4, h5, h6, p, li, tr,
blockquote')`. -/
def selTags : List String :=
  ["h1", "h2", "h3", "h4", "h5", "h6", "p", "li", "tr", "blockquote"]

mutual

/-- `.text()` of a node: all descendant text concatenated in order. -/
def fullText : HNode → String
  | .text s => s
  | .elem _ children => fullTextList children

/-- `.text()` of a forest. -/
def fullTextList : List HNode → String
  | [] => ""
  | n :: ns => fullText n ++ fullTextList ns

end

/-- Text of a selected node after removing its direct block-level element
children: `$node.clone().children('h1,…,blockquote').remove().end().text()`.
Direct text nodes and non-block element children keep their full text. -/
def ownTextChildren (children : List HNode) : String :=
  fullTextList (children.filter fun c =>
    match c with
    | .text _ => true
    | .elem tag _ => !blockTags.contains tag)

/-- The markdown line emitted for one selected node (the `switch` on the
tag name). Headings carry the leading `\n` pushed by the source. -/
def lineFor (tag : String) (txt : String) : String :=
  if tag = "h1" then "\n# " ++ txt
  else if tag = "h2" then "\n## " ++ txt
  else if tag = "h3" then "\n### " ++ txt
  else if tag = "h4" || tag = "h5" || tag = "h6" then "\n**" ++ txt ++ "**"
  else if tag = "li" then "- " ++ txt
  else if tag = "blockquote" then "> " ++ txt
  else txt

mutual

/-- `$('script, style').remove()` on one node: drop the node when it is a
script/style element, recurse into other elements. -/
def scrubNode : HNode → List HNode
  | .text s => [.text s]
  | .elem tag children =>
    if tag = "script" || tag = "style" then []
    else [.elem tag (scrubForest children)]

/-- `$('script, style').remove()`: drop script/style elements anywhere in
the tree. -/
def scrubForest : List HNode → List HNode
  | [] => []
  | n :: ns => scrubNode n ++ scrubForest ns

end

mutual

/-- Lines contributed by one node of the `.each` walk, in document order
(the node's own line, when selected and nonempty, before its
descendants'). -/
def emitNode : HNode → List String
  | .text _ => []
  | .elem tag children =>
    (if selTags.contains tag then
      let txt := trimString (ownTextChildren children)
      if txt = "" then [] else [lineFor tag txt]
    else []) ++ emitForest children

/-- Lines contributed by a forest, in document order. -/
def emitForest : List HNode → List String
  | [] => []
  | n :: ns => emitNode n ++ emitForest ns

end

/-- The consecutive-duplicate filter: push a line only when it differs
from the last pushed line. -/
def dedupConsecutive (lines : List String) : List String :=
  (lines.foldl
    (fun acc line => if acc.head? = some line then acc else line :: acc)
    []).reverse

/-- `htmlToMarkdown` from support-site.ts, over the parsed document. -/
def htmlToMarkdown (forest : List HNode) : String :=
  let lines := emitForest (scrubForest forest)
  let deduped := dedupConsecutive lines
  String.mk (trimChars (collapseNL (String.intercalate "\n" deduped).data))

/-! ## YouTrack KB adapter (youtrack-kb.ts) -/

/-- `project(id,name,shortName)` descriptor. -/
structure YTProject where
  id : String
  name : String
  shortName : String
deriving Repr, DecidableEq

/-- `(id,idReadable,summary)` reference to a parent or child article. -/
structure YTArticleRef where
  id : String
  idReadable : String
  summary : String
deriving Repr, DecidableEq

/-- The `YouTrackArticle` interface. -/
structure YouTrackArticle where
  id : String
  idReadable : String
  summary : String
  content : Option String := none
  created : Option Int := none
  updated : Option Int := none
  project : Option YTProject := none
  parentArticle : Option YTArticleRef := none
  childArticles : Option (List YTArticleRef) := none
deriving Repr, DecidableEq

/-- Upstream oracle for the YouTrack REST API.  `searchResponse query top`
is the `GET /articles` payload for the given `query` and `$top` values
(`.ok none` models a non-array JSON body, for the `Array.isArray` guard);
`articleResponse id` is the `GET /articles/{id}` payload.  `.error msg`
models a thrown transport error or non-2xx response. -/
structure KBEnv where
  searchResponse : String → Int → Except String (Option (List YouTrackArticle))
  articleResponse : String → Except String YouTrackArticle

/-- `searchKBArticles(query, limit = 10)`: on error, log and return `[]`;
on a non-array body return `[]`. -/
def searchKBArticles (env : KBEnv) (query : String) (limit : Option Int) :
    List YouTrackArticle :=
  match env.searchResponse query (limit.getD 10) with
  | .error _ => []
  | .ok articles => articles.getD []

/-- `getKBArticle(articleId)`: `null` on any error. -/
def getKBArticle (env : KBEnv) (articleId : String) : Option YouTrackArticle :=
  (env.articleResponse articleId).toOption

/-- `formatArticle`: title, id, project, parent, children, body, joined
with newlines.  `if (article.content)` is string truthiness, so an empty
body is skipped. -/
def formatArticle (a : YouTrackArticle) : String :=
  let parts := ["## " ++ a.summary, "**ID:** " ++ a.idReadable]
  let parts := parts ++
    (match a.project with
     | some p => ["**Project:** " ++ p.name ++ " (" ++ p.shortName ++ ")"]
     | none => [])
  let parts := parts ++
    (match a.parentArticle with
     | some p => ["**Parent:** " ++ p.summary ++ " (" ++ p.idReadable ++ ")"]
     | none => [])
  let parts := parts ++
    (match a.childArticles with
     | some cs =>
       if cs.length > 0 then
         ["**Sub-articles:** " ++ String.intercalate ", "
           (cs.map fun c => c.summary ++ " (" ++ c.idReadable ++ ")")]
       else []
     | none => [])
  let parts := parts ++
    (match a.content with
     | some c => if c = "" then [] else ["", c]
     | none => [])
  String.intercalate "\n" parts

/-- The sentence returned when the KB search yields no articles. -/
def noKBArticlesSentence : String :=
  "No YouTrack knowledge base articles found for this query."

/-- The id passed to the per-article fetch: `article.idReadable ||
article.id` (JavaScript `||`, so an empty `idReadable` falls back). -/
def articleLookupKey (a : YouTrackArticle) : String :=
  if a.idReadable = "" then a.id else a.idReadable

/-- One iteration of the sequential per-article loop: fetch the full
article by its lookup key, append its formatted block when the fetch
succeeds, and record the fetch call either way. -/
def kbFetchStep (env : KBEnv) (acc : List String × List String)
    (article : YouTrackArticle) : List String × List String :=
  let key := articleLookupKey article
  match getKBArticle env key with
  | some fullArticle => (acc.1 ++ [formatArticle fullArticle], acc.2 ++ [key])
  | none => (acc.1, acc.2 ++ [key])

/-- `searchAndFetchArticles(query, maxArticles = 5)`, instrumented: the
second component records the ids of the per-article fetch calls the
sequential loop performs, in order. -/
def searchAndFetchArticlesCore (env : KBEnv) (query : String)
    (maxArticles : Option Int) : String × List String :=
  let articles := searchKBArticles env query (some (maxArticles.getD 5))
  if articles.length = 0 then
    (noKBArticlesSentence, [])
  else
    let folded := articles.foldl (kbFetchStep env) ([], [])
    (String.intercalate "\n\n---\n\n" folded.1, folded.2)

/-- `searchAndFetchArticles(query, maxArticles = 5)`: the returned text. -/
def searchAndFetchArticles (env : KBEnv) (query : String)
    (maxArticles : Option Int) : String :=
  (searchAndFetchArticlesCore env query maxArticles).1

/-- `getBaseUrl` on character lists: `replace(/\/+$/, '')`. -/
def stripTrailingSlashChars (l : List Char) : List Char :=
  (l.reverse.dropWhile (fun c => c == '/')).reverse

/-- The `'/api'` suffix. -/
def apiChars : List Char := ['/', 'a', 'p', 'i']

/-- `getBaseUrl` on character lists: strip trailing slashes, then append
`/api` unless the URL already ends with it. -/
def normalizeBaseUrl (l : List Char) : List Char :=
  let url := stripTrailingSlashChars l
  if apiChars <:+ url then url else url ++ apiChars

/-- `getBaseUrl()`, as a function of the configured `YOUTRACK_BASE_URL`. -/
def getBaseUrl (base : String) : String :=
  String.mk (normalizeBaseUrl base.data)

/-! ## Support-site adapter (support-site.ts) -/

/-- A Zendesk article as consumed by this code.  `body` is the parsed
HTML body (`none` models an absent or empty — falsy — `body` string);
`label_names` is `none` when the field is missing (the `article.label_names
&&` guard). -/
structure ZendeskArticle where
  id : Int
  title : String
  html_url : String
  body : Option (List HNode) := none
  snippet : Option String := none
  section_id : Int := 0
  label_names : Option (List String) := none
  created_at : String := ""
  updated_at : String := ""

/-- The search-hit shape returned by `searchSupportSite`. -/
structure SupportArticle where
  title : String
  url : String
  snippet : Option String

/-- Upstream oracle for the Zendesk Help Center API.
`searchResponse query perPage` is the `articles/search.json` payload
(`.ok none` models a missing `results` field, for `data.results || []`);
`articleResponse id` is the `articles/{id}.json` payload. -/
structure SupportEnv where
  searchResponse : String → Int → Except String (Option (List ZendeskArticle))
  articleResponse : String → Except String ZendeskArticle

/-- `searchSupportSite(query, limit = 5)`: errors map to `[]`. -/
def searchSupportSite (env : SupportEnv) (query : String) (limit : Option Int) :
    List SupportArticle :=
  match env.searchResponse query (limit.getD 5) with
  | .error _ => []
  | .ok results =>
    (results.getD []).map fun a => ⟨a.title, a.html_url, a.snippet⟩

/-- The per-article block built identically in `getSupportArticle` and
`searchAndFetchSupportArticles`: title, source URL, labels, normalized
body. -/
def formatZendeskArticle (a : ZendeskArticle) : String :=
  let parts := ["# " ++ a.title, "**Source:** " ++ a.html_url]
  let parts := parts ++
    (match a.label_names with
     | some ls =>
       if ls.length > 0 then ["**Labels:** " ++ String.intercalate ", " ls]
       else []
     | none => [])
  let parts := parts ++
    (match a.body with
     | some forest => ["", htmlToMarkdown forest]
     | none => [])
  String.intercalate "\n" parts

/-- The `/articles/(\d+)` scan: at each position, look for the literal
`/articles/` followed by at least one digit; the capture is the maximal
digit run there. -/
def extractIdAux : List Char → Option String
  | [] => none
  | c :: cs =>
    if ("/articles/".data).isPrefixOf (c :: cs) then
      let ds := ((c :: cs).drop ("/articles/".data).length).takeWhile Char.isDigit
      if ds.length > 0 then some (String.mk ds) else extractIdAux cs
    else extractIdAux cs

/-- `url.match(/\/articles\/(\d+)/)`: the captured article id, if any. -/
def extractArticleId (url : String) : Option String :=
  extractIdAux url.data

/-- `getSupportArticle(url)`, instrumented: the second component records
the ids of the article fetch calls performed (empty when the id cannot be
extracted, so no network call happens). -/
def getSupportArticleCore (env : SupportEnv) (url : String) :
    String × List String :=
  match extractArticleId url with
  | none => ("Could not extract article ID from URL: " ++ url, [])
  | some articleId =>
    match env.articleResponse articleId with
    | .error msg => ("Error fetching article: " ++ msg, [articleId])
    | .ok article => (formatZendeskArticle article, [articleId])

/-- `getSupportArticle(url)`: the returned text. -/
def getSupportArticle (env : SupportEnv) (url : String) : String :=
  (getSupportArticleCore env url).1

/-- The sentence returned when the support search yields no articles. -/
def noSupportArticlesSentence : String :=
  "No support articles found for this query."

/-- `searchAndFetchSupportArticles(query, maxArticles = 3)`: one search
call (the search payload already carries full bodies, so no per-article
fetches), formatted hits joined with the separator; a caught error maps to
an error string. -/
def searchAndFetchSupportArticles (env : SupportEnv) (query : String)
    (maxArticles : Option Int) : String :=
  match env.searchResponse query (maxArticles.getD 3) with
  | .error msg => "Error searching support articles: " ++ msg
  | .ok results =>
    let articles := results.getD []
    if articles.length = 0 then noSupportArticlesSentence
    else String.intercalate "\n\n---\n\n" (articles.map formatZendeskArticle)

/-! ## GitHub adapter (github-search.ts) -/

/-- One `text_matches` entry of a code-search item. -/
structure GHTextMatch where
  fragment : Option String := none

/-- One item of the `/search/code` payload, with the fields this code
reads (`item.repository?.full_name` flattened to one optional string). -/
structure GHCodeItem where
  repositoryFullName : Option String := none
  path : Option String := none
  html_url : Option String := none
  text_matches : Option (List GHTextMatch) := none

/-- The `/search/code` payload (`.items` may be missing: `data.items || []`). -/
structure GHCodeData where
  items : Option (List GHCodeItem) := none

/-- One item of the `/search/repositories` payload. -/
structure GHRepoItem where
  name : Option String := none
  full_name : Option String := none
  description : Option String := none
  language : Option String := none
  url : Option String := none
  html_url : Option String := none

/-- The `/search/repositories` payload. -/
structure GHRepoData where
  items : Option (List GHRepoItem) := none

/-- The `GitHubCodeMatch` interface. -/
structure GitHubCodeMatch where
  repository : String
  filePath : String
  url : String
  textMatches : List String
deriving Repr

/-- The `GitHubRepoMatch` interface. -/
structure GitHubRepoMatch where
  name : String
  fullName : String
  description : String
  language : String
  url : String
  htmlUrl : String
deriving Repr

/-- GitHub configuration and upstream oracle.  `token` and `defaultOrg`
model `GITHUB_TOKEN` and `GITHUB_ORG`; `codeResponse q perPage` is the
`/search/code` payload for the full query string `q` (the constant
`sort=best-match` parameter of the repo search is part of the request, not
a key). -/
structure GHEnv where
  token : String
  defaultOrg : String
  codeResponse : String → Int → Except String GHCodeData
  repoResponse : String → Int → Except String GHRepoData

/-- `isGitHubConfigured()`: a token is present. -/
def isGitHubConfigured (env : GHEnv) : Bool :=
  env.token.length > 0

/-- `org || GITHUB_ORG`: JavaScript `||`, so an absent or empty argument
falls back to the configured default. -/
def resolveOrg (env : GHEnv) (org : Option String) : String :=
  match org with
  | some s => if s = "" then env.defaultOrg else s
  | none => env.defaultOrg

/-- `targetOrg ? query + ' org:' + targetOrg : query`. -/
def githubFullQuery (env : GHEnv) (query : String) (org : Option String) :
    String :=
  let targetOrg := resolveOrg env org
  if targetOrg = "" then query else query ++ " org:" ++ targetOrg

/-- `searchGitHubCode(query, org?, limit = 10)`: errors map to `[]`;
missing item fields map to `''`; fragments truncated with
`substring(0, 300)`. -/
def searchGitHubCode (env : GHEnv) (query : String) (org : Option String)
    (limit : Option Int) : List GitHubCodeMatch :=
  match env.codeResponse (githubFullQuery env query org) (limit.getD 10) with
  | .error _ => []
  | .ok data =>
    (data.items.getD []).map fun item =>
      { repository := item.repositoryFullName.getD ""
        filePath := item.path.getD ""
        url := item.html_url.getD ""
        textMatches := (item.text_matches.getD []).map fun tm =>
          String.mk ((tm.fragment.getD "").data.take 300) }

/-- `searchGitHubRepos(query, org?, limit = 5)`: errors map to `[]`. -/
def searchGitHubRepos (env : GHEnv) (query : String) (org : Option String)
    (limit : Option Int) : List GitHubRepoMatch :=
  match env.repoResponse (githubFullQuery env query org) (limit.getD 5) with
  | .error _ => []
  | .ok data =>
    (data.items.getD []).map fun item =>
      { name := item.name.getD ""
        fullName := item.full_name.getD ""
        description := item.description.getD ""
        language := item.language.getD ""
        url := item.url.getD ""
        htmlUrl := item.html_url.getD "" }

/-- The fixed sentence used whenever the GitHub adapter is unconfigured. -/
def ghNotConfiguredSentence : String :=
  "GitHub search is not configured (GITHUB_TOKEN not set). Skipping code search."

/-- The repository block of `searchAndFetchGitHubResults`: header plus two
lines per repo, or the independent fallback line.  `repo.description ?` and
`repo.language ?` are string truthiness. -/
def ghRepoSectionLines (repoResults : List GitHubRepoMatch) : List String :=
  if repoResults.length > 0 then
    ["## Relevant Repositories", ""] ++
      (repoResults.map fun repo =>
        let desc := if repo.description = "" then "" else " - " ++ repo.description
        let lang := if repo.language = "" then "" else " [" ++ repo.language ++ "]"
        ["- **" ++ repo.fullName ++ "**" ++ lang ++ desc, "  " ++ repo.htmlUrl]).flatten
  else ["No matching repositories found."]

/-- The code block of `searchAndFetchGitHubResults`: header plus one block
per match, or the independent fallback line. -/
def ghCodeSectionLines (codeResults : List GitHubCodeMatch) : List String :=
  if codeResults.length > 0 then
    ["## Code Matches", ""] ++
      (codeResults.map fun m =>
        ["### " ++ m.repository ++ " / " ++ m.filePath, m.url] ++
          (if m.textMatches.length > 0 then
            ["```", String.intercalate "\n...\n" m.textMatches, "```"]
          else []) ++
          [""]).flatten
  else ["No matching code found."]

/-- `searchAndFetchGitHubResults(query, org?)`: the not-configured
sentence, or the repo section, a blank line and the code section joined
with newlines (code search at limit 10, repo search at limit 5). -/
def searchAndFetchGitHubResults (env : GHEnv) (query : String)
    (org : Option String) : String :=
  if isGitHubConfigured env = false then ghNotConfiguredSentence
  else
    let codeResults := searchGitHubCode env query org (some 10)
    let repoResults := searchGitHubRepos env query org (some 5)
    String.intercalate "\n"
      (ghRepoSectionLines repoResults ++ [""] ++ ghCodeSectionLines codeResults)

/-! ## Aggregator: the `ask_product_question` handler (src/tools.ts) -/

/-- The three adapters' upstream state, as seen by one tool invocation. -/
structure AggEnv where
  kb : KBEnv
  support : SupportEnv
  gh : GHEnv

/-- The third response section: the GitHub task's text when it was
dispatched (`shouldSearchGitHub && isGitHubConfigured()`), else the
destructured `githubContent` is `undefined`; either way the handler
renders `githubContent || ghNotConfiguredSentence`. -/
def codeResultsSection (env : AggEnv) (question : String)
    (includeGithub : Option Bool) : String :=
  if includeGithub.getD (isGitHubConfigured env.gh) && isGitHubConfigured env.gh then
    let g := searchAndFetchGitHubResults env.gh question none
    if g = "" then ghNotConfiguredSentence else g
  else ghNotConfiguredSentence

/-- The `ask_product_question` handler: resolve the option defaults
(`?? 5`, `?? 3`, `?? isGitHubConfigured()`), run the two or three
`searchAndFetch` tasks, and join the fixed response template with
newlines. -/
def askProductQuestion (env : AggEnv) (question : String)
    (maxKbArticles maxSupportArticles : Option Int)
    (includeGithub : Option Bool) : String :=
  let kbLimit := maxKbArticles.getD 5
  let supportLimit := maxSupportArticles.getD 3
  let shouldSearchGitHub := includeGithub.getD (isGitHubConfigured env.gh)
  let kbContent := searchAndFetchArticles env.kb question (some kbLimit)
  let supportContent := searchAndFetchSupportArticles env.support question (some supportLimit)
  let githubContent : Option String :=
    if shouldSearchGitHub && isGitHubConfigured env.gh then
      some (searchAndFetchGitHubResults env.gh question none)
    else none
  String.intercalate "\n"
    ["# YouTrack Knowledge Base Results", "", kbContent, "", "---", "",
     "# Support Site Results", "", supportContent, "", "---", "",
     "# GitHub Code Search Results", "",
     match githubContent with
     | some s => if s = "" then ghNotConfiguredSentence else s
     | none => ghNotConfiguredSentence]

/-! ## Concrete fixtures

Small closed environments used by witnesses and counterexamples. -/

/-- A sample KB article with no optional fields. -/
def probeArticle : YouTrackArticle :=
  { id := "A-1", idReadable := "RV2-A-1", summary := "Sample" }

/-- KB upstream that answers only a `$top` of `0` with one article: it
distinguishes whether a supplied limit of `0` or the default reaches the
request. -/
def probeKBEnv : KBEnv :=
  ⟨fun _ top => .ok (some (if top = 0 then [probeArticle] else [])),
   fun _ => .error "down"⟩

/-- A second KB upstream agreeing with `probeKBEnv` at `$top = 0` only. -/
def probeKBEnvB : KBEnv :=
  ⟨fun _ top => .ok (some (if top = 0 then [probeArticle] else [probeArticle, probeArticle])),
   fun _ => .error "down"⟩

/-- KB upstream whose search finds `probeArticle` but whose per-article
fetch always fails. -/
def lostKBEnv : KBEnv :=
  ⟨fun _ _ => .ok (some [probeArticle]), fun _ => .error "gone"⟩

/-- KB upstream with an empty search result. -/
def emptyKBEnv : KBEnv :=
  ⟨fun _ _ => .ok (some []), fun _ => .error "down"⟩

/-- KB upstream that always fails. -/
def errKBEnv : KBEnv :=
  ⟨fun _ _ => .error "kb down", fun _ => .error "kb down"⟩

/-- Support upstream with an empty search result. -/
def emptySupportEnv : SupportEnv :=
  ⟨fun _ _ => .ok (some []), fun _ => .error "support down"⟩

/-- Support upstream that always fails. -/
def errSupportEnv : SupportEnv :=
  ⟨fun _ _ => .error "support down", fun _ => .error "support down"⟩

/-- Unconfigured GitHub adapter state. -/
def offGHEnv : GHEnv :=
  ⟨"", "Realtyka", fun _ _ => .error "gh down", fun _ _ => .error "gh down"⟩

/-- Configured GitHub adapter state whose two searches both fail. -/
def errGHEnv : GHEnv :=
  ⟨"tok", "Realtyka", fun _ _ => .error "gh down", fun _ _ => .error "gh down"⟩

/-- Configured GitHub adapter state with one code hit and a failing repo
search: the two sections degrade independently. -/
def mixedGHEnv : GHEnv :=
  ⟨"tok", "Realtyka",
   fun _ _ => .ok
     { items := some [{ repositoryFullName := some "Realtyka/svc"
                        path := some "src/a.ts"
                        html_url := some "https://g/u"
                        text_matches := some [{ fragment := some "frag" }] }] },
   fun _ _ => .error "gh down"⟩

/-- Aggregator state: empty KB and support results, GitHub unconfigured. -/
def cAggEnv : AggEnv :=
  ⟨emptyKBEnv, emptySupportEnv, offGHEnv⟩

/-! ## Helper lemmas -/

theorem headNotWS_dropWhile (l : List Char) :
    headNotWS (l.dropWhile isWS) = true := by
  induction l with
  | nil => rfl
  | cons c cs ih =>
    rw [List.dropWhile_cons]
    by_cases h : isWS c = true
    · rw [if_pos h]; exact ih
    · rw [if_neg h]
      simp [headNotWS, h]

theorem trim_decomp (l : List Char) :
    l.dropWhile isWS =
      trimChars l ++ ((l.dropWhile isWS).reverse.takeWhile isWS).reverse := by
  unfold trimChars
  conv_lhs => rw [← (l.dropWhile isWS).reverse_reverse]
  conv_lhs =>
    rw [← List.takeWhile_append_dropWhile isWS (l.dropWhile isWS).reverse]
  rw [List.reverse_append]

theorem headNotWS_trimChars (l : List Char) :
    headNotWS (trimChars l) = true := by
  have hf := headNotWS_dropWhile l
  have hd := trim_decomp l
  cases h : trimChars l with
  | nil => rfl
  | cons c r =>
    rw [h, List.cons_append] at hd
    rw [hd] at hf
    simpa only [headNotWS] using hf

theorem lastNotWS_trimChars (l : List Char) :
    headNotWS (trimChars l).reverse = true := by
  unfold trimChars
  rw [List.reverse_reverse]
  exact headNotWS_dropWhile _

theorem hasTriple_tail (a : Char) (l : List Char)
    (h : hasTripleNL (a :: l) = false) : hasTripleNL l = false := by
  match l with
  | [] => rfl
  | [_] => rfl
  | b :: c :: r =>
    rw [show hasTripleNL (a :: b :: c :: r) =
        (if a = '\n' ∧ b = '\n' ∧ c = '\n' then true
         else hasTripleNL (b :: c :: r)) from rfl] at h
    split at h
    · exact absurd h (by simp)
    · exact h

theorem hasTriple_append_drop (t s : List Char)
    (h : hasTripleNL (t ++ s) = false) : hasTripleNL s = false := by
  induction t with
  | nil => exact h
  | cons a t ih => exact ih (hasTriple_tail a _ (by simpa using h))

theorem hasTriple_append_take :
    ∀ (l r : List Char), hasTripleNL (l ++ r) = false → hasTripleNL l = false := by
  intro l
  induction l with
  | nil => intro r _; rfl
  | cons a t ih =>
    intro r h
    cases t with
    | nil => rfl
    | cons b t2 =>
      cases t2 with
      | nil => rfl
      | cons c u =>
        rw [show (a :: b :: c :: u) ++ r = a :: b :: c :: (u ++ r) from rfl,
          show hasTripleNL (a :: b :: c :: (u ++ r)) =
            (if a = '\n' ∧ b = '\n' ∧ c = '\n' then true
             else hasTripleNL (b :: c :: (u ++ r))) from rfl] at h
        rw [show hasTripleNL (a :: b :: c :: u) =
          (if a = '\n' ∧ b = '\n' ∧ c = '\n' then true
           else hasTripleNL (b :: c :: u)) from rfl]
        split at h
        · exact absurd h (by simp)
        · next hcond =>
          rw [if_neg hcond]
          exact ih r h

theorem hasTriple_cons_ne (c : Char) (l : List Char) (hc : ¬c = '\n') :
    hasTripleNL (c :: l) = hasTripleNL l := by
  cases l with
  | nil => rfl
  | cons b t =>
    cases t with
    | nil => rfl
    | cons d u =>
      rw [show hasTripleNL (c :: b :: d :: u) =
        (if c = '\n' ∧ b = '\n' ∧ d = '\n' then true
         else hasTripleNL (b :: d :: u)) from rfl]
      rw [if_neg (by simp [hc])]

theorem hasTriple_nl_cons (c : Char) (hc : ¬c = '\n') (l : List Char) :
    hasTripleNL ('\n' :: c :: l) = hasTripleNL (c :: l) := by
  cases l with
  | nil => rfl
  | cons d u =>
    rw [show hasTripleNL ('\n' :: c :: d :: u) =
      (if '\n' = '\n' ∧ c = '\n' ∧ d = '\n' then true
       else hasTripleNL (c :: d :: u)) from rfl]
    rw [if_neg (by simp [hc])]

theorem hasTriple_repl (k : Nat) (hk : k ≤ 2) :
    hasTripleNL (List.replicate k '\n') = false := by
  match k, hk with
  | 0, _ => rfl
  | 1, _ => rfl
  | 2, _ => rfl

theorem hasTriple_repl_prepend (k : Nat) (hk : k ≤ 2) (c : Char)
    (hc : ¬c = '\n') (l : List Char) :
    hasTripleNL (List.replicate k '\n' ++ c :: l) = hasTripleNL (c :: l) := by
  match k, hk with
  | 0, _ => rfl
  | 1, _ => exact hasTriple_nl_cons c hc l
  | 2, _ =>
    rw [show List.replicate 2 '\n' ++ c :: l = '\n' :: '\n' :: c :: l from rfl]
    cases l with
    | nil =>
      rw [show hasTripleNL ['\n', '\n', c] =
        (if '\n' = '\n' ∧ '\n' = '\n' ∧ c = '\n' then true
         else hasTripleNL ['\n', c]) from rfl]
      rw [if_neg (by simp [hc])]
      rfl
    | cons d u =>
      rw [show hasTripleNL ('\n' :: '\n' :: c :: d :: u) =
        (if '\n' = '\n' ∧ '\n' = '\n' ∧ c = '\n' then true
         else hasTripleNL ('\n' :: c :: d :: u)) from rfl]
      rw [if_neg (by simp [hc]), hasTriple_nl_cons c hc (d :: u)]

theorem collapseRun_le_two (run : Nat) : collapseRun run ≤ 2 := by
  unfold collapseRun
  split <;> omega

theorem collapse_aux_ok (l : List Char) :
    ∀ run : Nat, hasTripleNL (collapseNLAux l run) = false := by
  induction l with
  | nil => intro run; exact hasTriple_repl _ (collapseRun_le_two run)
  | cons c cs ih =>
    intro run
    rw [show collapseNLAux (c :: cs) run =
      (if c = '\n' then collapseNLAux cs (run + 1)
       else List.replicate (collapseRun run) '\n' ++ c :: collapseNLAux cs 0)
      from rfl]
    by_cases hc : c = '\n'
    · rw [if_pos hc]; exact ih (run + 1)
    · rw [if_neg hc,
        hasTriple_repl_prepend _ (collapseRun_le_two run) c hc _,
        hasTriple_cons_ne c _ hc]
      exact ih 0

theorem collapse_ok (l : List Char) : hasTripleNL (collapseNL l) = false :=
  collapse_aux_ok l 0

theorem hasTriple_trim (l : List Char) (h : hasTripleNL l = false) :
    hasTripleNL (trimChars l) = false := by
  rw [← List.takeWhile_append_dropWhile isWS l] at h
  have h1 := hasTriple_append_drop _ _ h
  rw [trim_decomp l] at h1
  exact hasTriple_append_take _ _ h1

theorem dedup_chain_aux (lines : List String) :
    ∀ acc : List String, List.Chain' (fun a b => a ≠ b) acc →
      List.Chain' (fun a b => a ≠ b)
        (lines.foldl
          (fun acc line => if acc.head? = some line then acc else line :: acc)
          acc) := by
  induction lines with
  | nil => intro acc h; exact h
  | cons l ls ih =>
    intro acc h
    rw [List.foldl_cons]
    by_cases hc : acc.head? = some l
    · rw [if_pos hc]; exact ih acc h
    · rw [if_neg hc]
      refine ih _ (List.chain'_cons'.mpr ⟨?_, h⟩)
      intro y hy heq
      subst heq
      exact hc (Option.mem_def.mp hy)

theorem dedup_chain (lines : List String) :
    List.Chain' (fun a b => a ≠ b) (dedupConsecutive lines) := by
  unfold dedupConsecutive
  rw [List.chain'_reverse]
  exact (dedup_chain_aux lines [] (by simp)).imp fun a b h => Ne.symm h

theorem kbFold_all_missing (env : KBEnv) :
    ∀ (arts : List YouTrackArticle) (acc : List String × List String),
      (∀ a ∈ arts, getKBArticle env (articleLookupKey a) = none) →
      (arts.foldl (kbFetchStep env) acc).1 = acc.1 := by
  intro arts
  induction arts with
  | nil => intro acc _; rfl
  | cons a t ih =>
    intro acc h
    rw [List.foldl_cons]
    have ha := h a (List.mem_cons_self a t)
    rw [show kbFetchStep env acc a =
      ((acc.1, acc.2 ++ [articleLookupKey a]) : List String × List String) by
        simp [kbFetchStep, ha]]
    exact ih _ fun b hb => h b (List.mem_cons_of_mem a hb)

theorem strip_of_api_suffix (m : List Char) (h : apiChars <:+ m) :
    stripTrailingSlashChars m = m := by
  obtain ⟨t, rfl⟩ := h
  unfold stripTrailingSlashChars apiChars
  rw [List.reverse_append]
  rw [show (['/', 'a', 'p', 'i'] : List Char).reverse = ['i', 'p', 'a', '/'] from rfl]
  rw [show ((['i', 'p', 'a', '/'] : List Char) ++ t.reverse) =
    'i' :: (['p', 'a', '/'] ++ t.reverse) from rfl]
  rw [List.dropWhile_cons, if_neg (by decide)]
  rw [show ('i' :: (['p', 'a', '/'] ++ t.reverse)) =
    (['i', 'p', 'a', '/'] ++ t.reverse : List Char) from rfl]
  rw [List.reverse_append, List.reverse_reverse]
  rfl

theorem api_suffix_normalize (l : List Char) :
    apiChars <:+ normalizeBaseUrl l := by
  unfold normalizeBaseUrl
  by_cases h : apiChars <:+ stripTrailingSlashChars l
  · rw [if_pos h]; exact h
  · rw [if_neg h]; exact List.suffix_append _ _

theorem normalize_fixed (m : List Char) (h : apiChars <:+ m) :
    normalizeBaseUrl m = m := by
  unfold normalizeBaseUrl
  rw [strip_of_api_suffix m h, if_pos h]

/-! ## Claim theorems -/

/-- Claim C4 (confirmed): whenever the KB search step returns zero
articles, `searchAndFetchArticles` returns exactly the sentence
"No YouTrack knowledge base articles found for this query." and the
instrumented fetch trace is empty — no per-article fetch call is made. -/
theorem c4_kb_zero_hits (env : KBEnv) (query : String) (maxArticles : Option Int)
    (h : searchKBArticles env query (some (maxArticles.getD 5)) = []) :
    searchAndFetchArticlesCore env query maxArticles = (noKBArticlesSentence, []) ∧
    searchAndFetchArticles env query maxArticles = noKBArticlesSentence := by
  have hc : searchAndFetchArticlesCore env query maxArticles =
      (noKBArticlesSentence, []) := by
    unfold searchAndFetchArticlesCore
    rw [h]
    rfl
  exact ⟨hc, by unfold searchAndFetchArticles; rw [hc]⟩

/-- Witness for C4: a KB upstream whose search returns an empty array. -/
theorem c4_kb_zero_hits_witness :
    searchAndFetchArticlesCore emptyKBEnv "q" none = (noKBArticlesSentence, []) ∧
    searchAndFetchArticles emptyKBEnv "q" none = noKBArticlesSentence :=
  c4_kb_zero_hits emptyKBEnv "q" none rfl

/-- Claim C5 (confirmed): the HTML normalizer's duplicate filter leaves no
two adjacent equal lines for any emitted line list; for every parsed HTML
input the final text contains no run of three newline characters and
neither starts nor ends with whitespace; and
`<h2>Title</h2><p>Body</p><p>Body</p>` normalizes to `## Title` followed
by exactly one `Body` line. -/
theorem c5_html_normalizer :
    (∀ lines : List String,
      List.Chain' (fun a b => a ≠ b) (dedupConsecutive lines)) ∧
    (∀ forest : List HNode, hasTripleNL (htmlToMarkdown forest).data = false) ∧
    (∀ forest : List HNode, headNotWS (htmlToMarkdown forest).data = true) ∧
    (∀ forest : List HNode, headNotWS (htmlToMarkdown forest).data.reverse = true) ∧
    htmlToMarkdown
      [.elem "h2" [.text "Title"], .elem "p" [.text "Body"],
       .elem "p" [.text "Body"]] = "## Title\nBody" := by
  refine ⟨dedup_chain, ?_, ?_, ?_, rfl⟩
  · intro forest; exact hasTriple_trim _ (collapse_ok _)
  · intro forest; exact headNotWS_trimChars _
  · intro forest; exact lastNotWS_trimChars _

/-- Claim C6 (confirmed): for a URL with no `/articles/<digits>` segment,
`getSupportArticle` returns the message carrying the original URL and the
instrumented fetch trace is empty — no network call is made. -/
theorem c6_bad_support_url (env : SupportEnv) (url : String)
    (h : extractArticleId url = none) :
    getSupportArticleCore env url =
      ("Could not extract article ID from URL: " ++ url, []) ∧
    getSupportArticle env url =
      "Could not extract article ID from URL: " ++ url := by
  have hc : getSupportArticleCore env url =
      ("Could not extract article ID from URL: " ++ url, []) := by
    unfold getSupportArticleCore
    rw [h]
  exact ⟨hc, by unfold getSupportArticle; rw [hc]⟩

/-- Witness for C6: a help-center URL carrying no article id. -/
theorem c6_bad_support_url_witness :
    getSupportArticle errSupportEnv "https://support.example.com/hc/en-us/requests/42" =
      "Could not extract article ID from URL: " ++
        "https://support.example.com/hc/en-us/requests/42" :=
  (c6_bad_support_url errSupportEnv
    "https://support.example.com/hc/en-us/requests/42" rfl).2

/-- Claim C8 (confirmed): base-URL normalization strips all trailing
slashes and ensures the `/api` suffix exactly once (appending nothing when
the slash-stripped URL already ends with it), and is idempotent. -/
theorem c8_base_url_normalization :
    ∀ l : List Char,
      normalizeBaseUrl l =
        (if apiChars <:+ stripTrailingSlashChars l then stripTrailingSlashChars l
         else stripTrailingSlashChars l ++ apiChars) ∧
      apiChars <:+ normalizeBaseUrl l ∧
      stripTrailingSlashChars (normalizeBaseUrl l) = normalizeBaseUrl l ∧
      normalizeBaseUrl (normalizeBaseUrl l) = normalizeBaseUrl l ∧
      getBaseUrl (String.mk l) = String.mk (normalizeBaseUrl l) := by
  intro l
  exact ⟨rfl, api_suffix_normalize l,
    strip_of_api_suffix _ (api_suffix_normalize l),
    normalize_fixed _ (api_suffix_normalize l), rfl⟩

/-- Claim C10 (confirmed): when the KB search finds at least one article
but every per-article fetch misses, `searchAndFetchArticles` returns the
empty string, not the "no articles found" sentence. -/
theorem c10_kb_fetches_all_missing (env : KBEnv) (query : String)
    (maxArticles : Option Int)
    (h1 : searchKBArticles env query (some (maxArticles.getD 5)) ≠ [])
    (h2 : ∀ a ∈ searchKBArticles env query (some (maxArticles.getD 5)),
            getKBArticle env (articleLookupKey a) = none) :
    searchAndFetchArticles env query maxArticles = "" ∧
    searchAndFetchArticles env query maxArticles ≠ noKBArticlesSentence := by
  have hz : ¬(searchKBArticles env query (some (maxArticles.getD 5))).length = 0 := by
    intro hz; exact h1 (List.length_eq_zero.mp hz)
  have he : searchAndFetchArticles env query maxArticles = "" := by
    simp only [searchAndFetchArticles, searchAndFetchArticlesCore]
    rw [if_neg hz]
    rw [kbFold_all_missing env _ ([], []) h2]
    rfl
  exact ⟨he, by rw [he]; decide⟩

/-- Witness for C10: a search with one hit whose full fetch fails. -/
theorem c10_kb_fetches_all_missing_witness :
    searchAndFetchArticles lostKBEnv "q" none = "" :=
  (c10_kb_fetches_all_missing lostKBEnv "q" none
    (by
      rw [show searchKBArticles lostKBEnv "q" (some (Option.getD none 5)) =
        [probeArticle] from rfl]
      exact List.cons_ne_nil _ _)
    (by
      intro a ha
      rw [show searchKBArticles lostKBEnv "q" (some (Option.getD none 5)) =
        [probeArticle] from rfl] at ha
      rw [List.mem_singleton.mp ha]
      rfl)).1

/-- Counterexample for C2: with the probe upstream, a supplied limit of
`0` reaches the request (`$top = 0` answers one article) and differs from
the absent-limit call, so a non-positive limit is not replaced by the
default of 10. -/
theorem c2_counterexample :
    searchKBArticles probeKBEnv "q" (some 0) = [probeArticle] ∧
    searchKBArticles probeKBEnv "q" none = [] ∧
    searchKBArticles probeKBEnv "q" (some 0) ≠ searchKBArticles probeKBEnv "q" none := by
  refine ⟨rfl, rfl, ?_⟩
  intro heq
  rw [show searchKBArticles probeKBEnv "q" (some 0) = [probeArticle] from rfl,
      show searchKBArticles probeKBEnv "q" none = [] from rfl] at heq
  exact List.cons_ne_nil _ _ heq

/-- Claim C2 (corrected): an absent limit argument is replaced by the
documented default (10 / 5 / 5 / 3 / 10), but a supplied limit — including
zero or negative values — is passed to the upstream request unchanged:
each call depends on the upstream response at exactly the supplied
value. -/
theorem c2_limit_defaults (kbe kbe' : KBEnv) (se se' : SupportEnv)
    (ge : GHEnv) (q : String) (org : Option String) (l : Int) :
    searchKBArticles kbe q none = searchKBArticles kbe q (some 10) ∧
    searchAndFetchArticles kbe q none = searchAndFetchArticles kbe q (some 5) ∧
    searchSupportSite se q none = searchSupportSite se q (some 5) ∧
    searchAndFetchSupportArticles se q none =
      searchAndFetchSupportArticles se q (some 3) ∧
    searchGitHubCode ge q org none = searchGitHubCode ge q org (some 10) ∧
    (kbe.searchResponse q l = kbe'.searchResponse q l →
      searchKBArticles kbe q (some l) = searchKBArticles kbe' q (some l)) ∧
    (se.searchResponse q l = se'.searchResponse q l →
      searchAndFetchSupportArticles se q (some l) =
        searchAndFetchSupportArticles se' q (some l)) := by
  refine ⟨rfl, rfl, rfl, rfl, rfl, ?_, ?_⟩
  · intro h
    simp only [searchKBArticles, Option.getD_some]
    rw [h]
  · intro h
    simp only [searchAndFetchSupportArticles, Option.getD_some]
    rw [h]

/-- Witness for C2: the defaulting and pass-through parts at concrete
upstreams that agree at `$top = 0` only. -/
theorem c2_limit_defaults_witness :
    searchKBArticles probeKBEnv "q" none = searchKBArticles probeKBEnv "q" (some 10) ∧
    searchKBArticles probeKBEnv "q" (some 0) =
      searchKBArticles probeKBEnvB "q" (some 0) := by
  have h := c2_limit_defaults probeKBEnv probeKBEnvB errSupportEnv errSupportEnv
    errGHEnv "q" none 0
  exact ⟨h.1, h.2.2.2.2.2.1 rfl⟩

/-- Claim C3 (confirmed): when every upstream call fails, no adapter
operation faults: the `search` operations return empty sequences and the
`searchAndFetch` operations return fixed or error text. -/
theorem c3_upstream_errors_absorbed
    (kbe : KBEnv) (se : SupportEnv) (ge : GHEnv) (q : String) (org : Option String)
    (limA limB limC limD limE : Option Int) (m1 m2 m3 m4 : String)
    (hkb : ∀ top, kbe.searchResponse q top = .error m1)
    (hsu : ∀ pp, se.searchResponse q pp = .error m2)
    (hco : ∀ fq pp, ge.codeResponse fq pp = .error m3)
    (hre : ∀ fq pp, ge.repoResponse fq pp = .error m4) :
    searchKBArticles kbe q limA = [] ∧
    searchAndFetchArticles kbe q limB = noKBArticlesSentence ∧
    searchSupportSite se q limC = [] ∧
    searchAndFetchSupportArticles se q limD =
      "Error searching support articles: " ++ m2 ∧
    searchGitHubCode ge q org limE = [] ∧
    searchGitHubRepos ge q org limE = [] ∧
    searchAndFetchGitHubResults ge q org =
      (if isGitHubConfigured ge = false then ghNotConfiguredSentence
       else "No matching repositories found.\n\nNo matching code found.") := by
  have e1 : ∀ lim : Option Int, searchKBArticles kbe q lim = [] := by
    intro lim; simp [searchKBArticles, hkb]
  have eCode : ∀ lim : Option Int, searchGitHubCode ge q org lim = [] := by
    intro lim; simp [searchGitHubCode, hco]
  have eRepo : ∀ lim : Option Int, searchGitHubRepos ge q org lim = [] := by
    intro lim; simp [searchGitHubRepos, hre]
  refine ⟨e1 limA, ?_, ?_, ?_, eCode limE, eRepo limE, ?_⟩
  · simp [searchAndFetchArticles, searchAndFetchArticlesCore, e1]
  · simp [searchSupportSite, hsu]
  · simp [searchAndFetchSupportArticles, hsu]
  · by_cases hcfg : isGitHubConfigured ge = false
    · rw [if_pos hcfg]
      unfold searchAndFetchGitHubResults
      rw [if_pos hcfg]
    · rw [if_neg hcfg]
      unfold searchAndFetchGitHubResults
      rw [if_neg hcfg]
      show String.intercalate "\n"
        (ghRepoSectionLines (searchGitHubRepos ge q org (some 5)) ++ [""] ++
         ghCodeSectionLines (searchGitHubCode ge q org (some 10))) = _
      rw [eRepo (some 5), eCode (some 10)]
      rfl

/-- Witness for C3: concrete always-failing upstreams. -/
theorem c3_upstream_errors_absorbed_witness :
    searchKBArticles errKBEnv "q" none = [] ∧
    searchAndFetchSupportArticles errSupportEnv "q" none =
      "Error searching support articles: support down" ∧
    searchAndFetchGitHubResults errGHEnv "q" none =
      "No matching repositories found.\n\nNo matching code found." := by
  have h := c3_upstream_errors_absorbed errKBEnv errSupportEnv errGHEnv "q" none
    none none none none none "kb down" "support down" "gh down" "gh down"
    (fun _ => rfl) (fun _ => rfl) (fun _ _ => rfl) (fun _ _ => rfl)
  refine ⟨h.1, h.2.2.2.1, ?_⟩
  have h7 := h.2.2.2.2.2.2
  rwa [if_neg (by decide)] at h7

set_option maxRecDepth 8000 in
/-- Claim C7 (confirmed): `searchAndFetchGitHubResults` returns the fixed
not-configured sentence when no token is set; otherwise it renders the
repository section (repo search at limit 5) before the code section (code
search at limit 10), each with its own independent fallback line, as the
mixed fixture (failing repo search, one code hit) shows. -/
theorem c7_github_sections :
    (∀ (env : GHEnv) (q : String) (org : Option String),
      searchAndFetchGitHubResults env q org =
        (if isGitHubConfigured env = false then ghNotConfiguredSentence
         else String.intercalate "\n"
           (ghRepoSectionLines (searchGitHubRepos env q org (some 5)) ++ [""] ++
            ghCodeSectionLines (searchGitHubCode env q org (some 10))))) ∧
    ghRepoSectionLines [] = ["No matching repositories found."] ∧
    ghCodeSectionLines [] = ["No matching code found."] ∧
    (∀ (r : GitHubRepoMatch) (rs : List GitHubRepoMatch),
      (ghRepoSectionLines (r :: rs)).head? = some "## Relevant Repositories") ∧
    (∀ (c : GitHubCodeMatch) (cs : List GitHubCodeMatch),
      (ghCodeSectionLines (c :: cs)).head? = some "## Code Matches") ∧
    searchAndFetchGitHubResults mixedGHEnv "q" none =
      "No matching repositories found.\n\n## Code Matches\n\n### Realtyka/svc / src/a.ts\nhttps://g/u\n```\nfrag\n```\n" := by
  refine ⟨?_, rfl, rfl, ?_, ?_, rfl⟩
  · intro env q org; rfl
  · intro r rs
    unfold ghRepoSectionLines
    rw [if_pos (by simp)]
    rfl
  · intro c cs
    unfold ghCodeSectionLines
    rw [if_pos (by simp)]
    rfl

/-- Counterexample for C1: with GitHub inclusion explicitly `false`, the
response still carries the `# GitHub Code Search Results` section (holding
the not-configured sentence), although the claim says the code-results
section is absent when inclusion resolves false. -/
theorem c1_counterexample :
    askProductQuestion cAggEnv "q" none none (some false) =
      "# YouTrack Knowledge Base Results\n\nNo YouTrack knowledge base articles found for this query.\n\n---\n\n# Support Site Results\n\nNo support articles found for this query.\n\n---\n\n# GitHub Code Search Results\n\nGitHub search is not configured (GITHUB_TOKEN not set). Skipping code search." ∧
    ("# GitHub Code Search Results").data <:+:
      (askProductQuestion cAggEnv "q" none none (some false)).data := by
  refine ⟨rfl, ?_⟩
  exact ⟨("# YouTrack Knowledge Base Results\n\nNo YouTrack knowledge base articles found for this query.\n\n---\n\n# Support Site Results\n\nNo support articles found for this query.\n\n---\n\n").data,
    ("\n\nGitHub search is not configured (GITHUB_TOKEN not set). Skipping code search.").data,
    rfl⟩

/-- Claim C1 (corrected): the response is always the fixed-order
concatenation of a KB section, a separator, a support section, a
separator, and a code-results section that is always present; the
code-results section equals the fixed not-configured sentence whenever the
adapter is unconfigured or inclusion resolves false (in particular with
the flag omitted and the adapter unconfigured). -/
theorem c1_response_sections :
    ∀ (env : AggEnv) (q : String) (mk ms : Option Int) (inc : Option Bool),
      askProductQuestion env q mk ms inc =
        String.intercalate "\n"
          ["# YouTrack Knowledge Base Results", "",
           searchAndFetchArticles env.kb q (some (mk.getD 5)), "", "---", "",
           "# Support Site Results", "",
           searchAndFetchSupportArticles env.support q (some (ms.getD 3)), "",
           "---", "",
           "# GitHub Code Search Results", "",
           codeResultsSection env q inc] ∧
      (isGitHubConfigured env.gh = false →
        codeResultsSection env q inc = ghNotConfiguredSentence) ∧
      (inc = some false →
        codeResultsSection env q inc = ghNotConfiguredSentence) := by
  intro env q mk ms inc
  refine ⟨?_, ?_, ?_⟩
  · unfold askProductQuestion codeResultsSection
    cases hb : inc.getD (isGitHubConfigured env.gh) && isGitHubConfigured env.gh <;>
      simp [hb]
  · intro h
    simp [codeResultsSection, h]
  · intro h
    subst h
    simp [codeResultsSection]

/-- Witness for C1: the unconfigured fixture, with the flag omitted and
with inclusion `false`. -/
theorem c1_response_sections_witness :
    codeResultsSection cAggEnv "q" none = ghNotConfiguredSentence ∧
    codeResultsSection cAggEnv "q" (some false) = ghNotConfiguredSentence :=
  ⟨(c1_response_sections cAggEnv "q" none none none).2.1 rfl,
   (c1_response_sections cAggEnv "q" none none (some false)).2.2 rfl⟩

end RealKB
